import Mathlib

/-!
Verification of the capability-probe script `scripts/test-capabilities.py`
(VGI-RPC website repository).

Shallow embedding. Python dicts over string keys with boolean values are
modelled as insertion-ordered association lists (`BDict`): assignment
(`d[k] = v`) is `dictSet`, and `d.update(u)` is `dictUpdate`. The probe
subprocess launched by `probe_capabilities` is modelled by an explicit
environment (`Env`): the outcome of each remote call the embedded probe
script issues is a `CallOut` value, where `hang` means the call never
returns (so the 60-second `subprocess.run` timeout fires and the parent
observes `TimeoutExpired`). Float responses are modelled as rationals.
-/

namespace VgiRpc

/-- The fixed pattern catalog, in source order. -/
def PATTERNS : List String :=
  ["unary", "unary_void", "producer", "producer_with_header",
   "exchange", "exchange_with_header"]

/-- The fixed feature catalog, in source order. -/
def FEATURES : List String :=
  ["introspection", "client_logging", "error_propagation", "complex_types",
   "optional_types", "dataclass_types", "annotated_types", "authentication",
   "external_storage", "opentelemetry"]

/-- A Python `dict[str, bool]` as an insertion-ordered association list. -/
abbrev BDict := List (String × Bool)

/-- The keys of a dict, in order. -/
def dictKeys (d : BDict) : List String := d.map Prod.fst

/-- Python dict assignment `d[k] = v`: overwrite in place if the key exists,
otherwise append at the end (insertion order). -/
def dictSet (d : BDict) (k : String) (v : Bool) : BDict :=
  if d.any (fun kv => kv.1 == k) then
    d.map (fun kv => if kv.1 == k then (k, v) else kv)
  else
    d ++ [(k, v)]

/-- Python `d.update(u)`: assign every entry of `u` into `d`, in order. -/
def dictUpdate (d u : BDict) : BDict :=
  u.foldl (fun acc kv => dictSet acc kv.1 kv.2) d

/-- Python `d.get(k)` restricted to bool dicts: the first (unique) value
stored at `k`. -/
def dictLookup (k : String) (d : BDict) : Option Bool :=
  (d.find? (fun kv => kv.1 == k)).map Prod.snd

/-- The initializer comprehension over PATTERNS (script line 197). -/
def zeroPatterns : BDict := PATTERNS.map (fun p => (p, false))

/-- The initializer comprehension over FEATURES (script line 198). -/
def zeroFeatures : BDict := FEATURES.map (fun f => (f, false))

/-- Outcome of one remote call issued by the probe script: it returns a
value, raises an exception (caught by the probe's `except` handler), or
hangs forever (the surrounding subprocess then exceeds its 60 s budget). -/
inductive CallOut (α : Type) where
  | ok (v : α)
  | exn
  | hang

/-- Whether a call outcome is a hang. -/
def CallOut.isHang {α : Type} : CallOut α → Bool
  | .hang => true
  | _ => false

/-- Outcome of `proxy.raise_error()`: returning normally, raising an
exception with the given `type(e).__name__`, or hanging. -/
inductive RaiseOut where
  | ret
  | exn (name : String)
  | hang

/-- Whether a `raise_error` outcome is a hang. -/
def RaiseOut.isHang : RaiseOut → Bool
  | .hang => true
  | _ => false

/-- Does the first list occur at the head of the second? -/
def subAt : List Char → List Char → Bool
  | [], _ => true
  | _ :: _, [] => false
  | a :: as, b :: bs => a == b && subAt as bs

/-- Does the first list occur contiguously anywhere in the second? -/
def hasSub (needle : List Char) : List Char → Bool
  | [] => subAt needle []
  | c :: rest => subAt needle (c :: rest) || hasSub needle rest

/-- Python `needle in hay` on strings (substring test). -/
def pyIn (needle hay : String) : Bool := hasSub needle.toList hay.toList

/-- Behaviour of the worker as observed through the RPC proxy: one outcome
per remote call the probe script issues, in the script's fixed order. -/
structure SessionBehavior where
  add : CallOut Rat
  void_method : CallOut Unit
  introspect : CallOut Nat
  raise_error : RaiseOut
  echo_list : CallOut (List Int)
  echo_optional : CallOut (Option Int)
  count_stream : CallOut Nat

/-- Whether any remote call of the session hangs: if so, the probe
subprocess never prints its JSON and the parent's 60 s timeout fires. -/
def sessionHangs (s : SessionBehavior) : Bool :=
  s.add.isHang || s.void_method.isHang || s.introspect.isHang ||
  s.raise_error.isHang || s.echo_list.isHang || s.echo_optional.isHang ||
  s.count_stream.isHang

/-- Python `abs` on rationals. -/
def pyAbs (q : Rat) : Rat := if q < 0 then -q else q

/-- The value assigned to `results["patterns"]["unary"]`: `abs(r - 3.0) < 0.001` on success,
`False` when the call raises (script lines 217-221). -/
def unaryVal (o : CallOut Rat) : Bool :=
  match o with
  | .ok r => decide (pyAbs (r - 3) < 1 / 1000)
  | _ => false

/-- The value assigned to `results["patterns"]["unary_void"]`: `True` once `void_method()`
returns, `False` when it raises (script lines 224-228). -/
def unaryVoidVal (o : CallOut Unit) : Bool :=
  match o with
  | .ok _ => true
  | _ => false

/-- The value assigned to `results["features"]["introspection"]`: `len(desc.methods) > 0` on
success, `False` when the call raises (script lines 231-236). -/
def introspectionVal (o : CallOut Nat) : Bool :=
  match o with
  | .ok n => decide (0 < n)
  | _ => false

/-- The value assigned to `results["features"]["error_propagation"]`: `False` when
`raise_error()` returns normally, `"RpcError" in type(e).__name__` when it
raises (script lines 239-243). -/
def errorPropVal (o : RaiseOut) : Bool :=
  match o with
  | .exn name => pyIn "RpcError" name
  | _ => false

/-- The value assigned to `results["features"]["complex_types"]`: `r == [1, 2, 3]` on success,
`False` when the call raises (script lines 246-250). -/
def complexVal (o : CallOut (List Int)) : Bool :=
  match o with
  | .ok l => l == [1, 2, 3]
  | _ => false

/-- The value assigned to `results["features"]["optional_types"]`: `r is None` on success,
`False` when the call raises (script lines 253-257). -/
def optionalVal (o : CallOut (Option Int)) : Bool :=
  match o with
  | .ok v => v.isNone
  | _ => false

/-- The value assigned to `results["patterns"]["producer"]`: the `count_stream(n=3)` loop counts
the yielded batches and checks `count == 3`; any exception during the
iteration gives `False` (script lines 260-266). -/
def producerVal (o : CallOut Nat) : Bool :=
  match o with
  | .ok k => k == 3
  | _ => false

/-- The `results["patterns"]` / `results["features"]` dicts the probe
script builds, assignment by assignment in source order (lines 216-272).
Note `"exchange"` is assigned `True` unconditionally (line 270) and that
only 4 of the 6 pattern keys and 4 of the 10 feature keys are ever
assigned. -/
def runProbes (s : SessionBehavior) : BDict × BDict :=
  let p := dictSet [] "unary" (unaryVal s.add)
  let p := dictSet p "unary_void" (unaryVoidVal s.void_method)
  let f := dictSet [] "introspection" (introspectionVal s.introspect)
  let f := dictSet f "error_propagation" (errorPropVal s.raise_error)
  let f := dictSet f "complex_types" (complexVal s.echo_list)
  let f := dictSet f "optional_types" (optionalVal s.echo_optional)
  let p := dictSet p "producer" (producerVal s.count_stream)
  let p := dictSet p "exchange" true
  (p, f)

/-- Outcome of `connect(ConformanceService, worker_cmd)` inside the probe
script: a live session, an exception (worker missing, launch failure, RPC
handshake failure — caught by the script's outer `except`), or a hang. -/
inductive ConnectOutcome where
  | ok (s : SessionBehavior)
  | fail
  | hang

/-- What the parent process observes from the probe subprocess:
`timeout` (`TimeoutExpired` after 60 s), `errJson` (the outer `except`
printed the error JSON, whose patterns and features dicts are both empty,
and exited with code 0), or the normal JSON result. -/
inductive ScriptResult where
  | timeout
  | errJson
  | ok (ps fs : BDict)

/-- Semantics of one run of the embedded probe script (lines 204-277). -/
def runScript (c : ConnectOutcome) : ScriptResult :=
  match c with
  | .hang => .timeout
  | .fail => .errJson
  | .ok s =>
    if sessionHangs s then .timeout
    else .ok (runProbes s).1 (runProbes s).2

/-- Outcome of one `subprocess.run` invocation (used for the version and
build commands): `FileNotFoundError`, `TimeoutExpired`, or completion with
a return code and captured stdout. -/
inductive RunOutcome where
  | fileNotFound
  | timeoutExpired
  | completed (returncode : Int) (stdout : String)

/-- The world one implementation is probed in: clone outcome, whether the
repo directory already exists, whether the probing interpreter
(`sys.executable`) can be spawned, which executables exist on the system,
and the behaviour of every spawned command. The two proof fields record
the operating-system guarantee that spawning a nonexistent executable
raises `FileNotFoundError` (so `subprocess.run` raises, and `connect`
raises inside the probe script). -/
structure Env where
  cloneOk : Bool
  repoExists : Bool
  pyOk : Bool
  exeExists : String → Bool
  runCmd : List String → RunOutcome
  connect : List String → ConnectOutcome
  run_missing : ∀ e rest, exeExists e = false →
    runCmd (e :: rest) = RunOutcome.fileNotFound
  connect_missing : ∀ e rest, exeExists e = false →
    connect (e :: rest) = ConnectOutcome.fail

/-- Embedding of `probe_capabilities(worker_cmd, repo_dir)` (script lines 189-294).
`worker_cmd` may be `None` (Python) = `none`; `if not worker_cmd` also
catches the empty list. On `TimeoutExpired` / `FileNotFoundError` /
`JSONDecodeError` the initial all-false dicts are returned unchanged; on a
printed JSON result the initial dicts are `update`d with the (possibly
partial) dicts the probe script produced. -/
def probe_capabilities (worker_cmd : Option (List String)) (env : Env) :
    BDict × BDict :=
  match worker_cmd with
  | none => (zeroPatterns, zeroFeatures)
  | some wcmd =>
    if wcmd.isEmpty then (zeroPatterns, zeroFeatures)
    else if env.pyOk then
      match runScript (env.connect wcmd) with
      | .timeout => (zeroPatterns, zeroFeatures)
      | .errJson => (dictUpdate zeroPatterns [], dictUpdate zeroFeatures [])
      | .ok ps fs => (dictUpdate zeroPatterns ps, dictUpdate zeroFeatures fs)
    else (zeroPatterns, zeroFeatures)

/-- Embedding of `get_version(lang_config, repo_dir)` (script lines 151-168): `None` when
no version command is configured (`if not version_cmd` also catches the
empty list), the stripped stdout on exit code 0, `None` on any nonzero
exit, `TimeoutExpired` or `FileNotFoundError`. -/
def get_version (version_cmd : Option (List String))
    (run : List String → RunOutcome) : Option String :=
  match version_cmd with
  | none => none
  | some cmd =>
    if cmd.isEmpty then none
    else
      match run cmd with
      | .completed rc out => if rc = 0 then some out.trim else none
      | _ => none

/-- Embedding of `build_worker(lang_config, repo_dir)` (script lines 171-186): `False`
without a build command, else success iff the command exits 0 (timeouts and
missing executables give `False`). -/
def build_worker (build_cmd : Option (List String))
    (run : List String → RunOutcome) : Bool :=
  match build_cmd with
  | none => false
  | some cmd =>
    if cmd.isEmpty then false
    else
      match run cmd with
      | .completed rc _ => rc == 0
      | _ => false

/-- One entry of the `LANGUAGES` table (script lines 27-104). -/
structure LangConfig where
  repo : String
  docs : Option String
  package_url : Option String
  build_cmd : Option (List String)
  worker_cmd : Option (List String)
  version_cmd : Option (List String)
  known_transports : BDict
deriving DecidableEq

/-- The `"python"` entry of `LANGUAGES` (script lines 28-50). -/
def pythonConfig : LangConfig where
  repo := "https://github.com/Query-farm/vgi-rpc-python"
  docs := some "https://vgi-rpc-python.query.farm"
  package_url := some "https://pypi.org/project/vgi-rpc/"
  build_cmd := some ["uv", "sync", "--all-extras"]
  worker_cmd := some ["uv", "run", "python", "-m", "vgi_rpc.conformance.worker"]
  version_cmd := some ["uv", "run", "python", "-c",
    "import vgi_rpc; print(vgi_rpc.__version__)"]
  known_transports :=
    [("pipe", true), ("subprocess", true), ("unix_socket", true),
     ("shared_memory", true), ("http", true), ("worker_pool", true)]

/-- The `"typescript"` entry of `LANGUAGES` (script lines 51-71). -/
def typescriptConfig : LangConfig where
  repo := "https://github.com/Query-farm/vgi-rpc-ts"
  docs := none
  package_url := none
  build_cmd := some ["bun", "install"]
  worker_cmd := some ["bun", "run", "src/conformance/worker.ts"]
  version_cmd := some ["bun", "run", "-e",
    "const pkg = require(\x27./package.json\x27); console.log(pkg.version)"]
  known_transports :=
    [("pipe", false), ("subprocess", true), ("unix_socket", false),
     ("shared_memory", false), ("http", false), ("worker_pool", false)]

/-- The `"go"` entry of `LANGUAGES` (script lines 72-87). -/
def goConfig : LangConfig where
  repo := "https://github.com/Query-farm/vgi-rpc-go"
  docs := none
  package_url := none
  build_cmd := some ["go", "build", "./..."]
  worker_cmd := some ["go", "run", "./cmd/conformance-worker"]
  version_cmd := none
  known_transports :=
    [("pipe", false), ("subprocess", true), ("unix_socket", false),
     ("shared_memory", false), ("http", false), ("worker_pool", false)]

/-- The `"cpp"` entry of `LANGUAGES` (script lines 88-103). -/
def cppConfig : LangConfig where
  repo := "https://github.com/Query-farm/vgi-rpc-cpp"
  docs := none
  package_url := none
  build_cmd := none
  worker_cmd := none
  version_cmd := none
  known_transports :=
    [("pipe", false), ("subprocess", false), ("unix_socket", false),
     ("shared_memory", false), ("http", false), ("worker_pool", false)]

/-- The `LANGUAGES` configuration table, in source order. -/
def LANGUAGES : List (String × LangConfig) :=
  [("python", pythonConfig), ("typescript", typescriptConfig),
   ("go", goConfig), ("cpp", cppConfig)]

/-- One entry of `result["languages"]` (script lines 313-321 / 340-348):
both construction sites build a dict with exactly these seven fields. -/
structure CapRecord where
  version : Option String
  repo : String
  docs : Option String
  package_url : Option String
  transports : BDict
  patterns : BDict
  features : BDict
deriving DecidableEq

/-- The worker command actually passed to `probe_capabilities` (script
lines 329-335): the configured one, unless a truthy build command was
configured and the build failed, in which case `None`. -/
def effective_worker_cmd (config : LangConfig)
    (run : List String → RunOutcome) : Option (List String) :=
  match config.build_cmd with
  | none => config.worker_cmd
  | some bcmd =>
    if bcmd.isEmpty then config.worker_cmd
    else if build_worker (some bcmd) run then config.worker_cmd
    else none

/-- The per-language body of `test_all_capabilities` (script lines
304-350): the skip path when the clone failed and no repo directory
exists, otherwise version extraction, optional build, probing, and record
assembly. -/
def test_language (config : LangConfig) (env : Env) : CapRecord :=
  if !env.cloneOk && !env.repoExists then
    { version := none
      repo := config.repo
      docs := config.docs
      package_url := config.package_url
      transports := config.known_transports
      patterns := zeroPatterns
      features := zeroFeatures }
  else
    let version := get_version config.version_cmd env.runCmd
    let pf := probe_capabilities (effective_worker_cmd config env.runCmd) env
    { version := version
      repo := config.repo
      docs := config.docs
      package_url := config.package_url
      transports := config.known_transports
      patterns := pf.1
      features := pf.2 }

/-- The top-level persisted snapshot (script lines 299-302). -/
structure Snapshot where
  generated_at : String
  languages : List (String × CapRecord)

/-- Embedding of `test_all_capabilities(repos_dir)` (script lines 297-352): one record
per configured language, in table order; `envs` gives the world each
language is probed in. -/
def test_all_capabilities (now : String) (envs : String → Env) : Snapshot where
  generated_at := now
  languages := LANGUAGES.map (fun lc => (lc.1, test_language lc.2 (envs lc.1)))

/-- A worker that behaves perfectly on every probed call. -/
def goodSession : SessionBehavior where
  add := .ok 3
  void_method := .ok ()
  introspect := .ok 5
  raise_error := .exn "RpcError"
  echo_list := .ok [1, 2, 3]
  echo_optional := .ok none
  count_stream := .ok 3

/-- A worker whose every probed call fails (raises), and whose
deliberately-failing method returns normally. -/
def badSession : SessionBehavior where
  add := .exn
  void_method := .exn
  introspect := .exn
  raise_error := .ret
  echo_list := .exn
  echo_optional := .exn
  count_stream := .exn

/-- Like `goodSession`, except that the streaming call hangs forever. -/
def hangSession : SessionBehavior :=
  { goodSession with count_stream := CallOut.hang }

/-- An environment where every executable exists, every auxiliary command
succeeds, and connecting yields the given outcome. -/
def envOf (c : ConnectOutcome) : Env where
  cloneOk := true
  repoExists := true
  pyOk := true
  exeExists := fun _ => true
  runCmd := fun _ => .completed 0 "0.1.0"
  connect := fun _ => c
  run_missing := fun _ _ h => Bool.noConfusion h
  connect_missing := fun _ _ h => Bool.noConfusion h

/-- A probe run against a live session with the given behaviour. -/
def probeRun (s : SessionBehavior) : BDict × BDict :=
  probe_capabilities (some ["worker"]) (envOf (ConnectOutcome.ok s))

/-- An environment where no executable exists: every spawn raises
`FileNotFoundError` and every in-script connect raises. -/
def missingEnv : Env where
  cloneOk := true
  repoExists := true
  pyOk := true
  exeExists := fun _ => false
  runCmd := fun _ => .fileNotFound
  connect := fun _ => .fail
  run_missing := fun _ _ _ => rfl
  connect_missing := fun _ _ _ => rfl

/-- Names the probe blocks the script actually executes (the hardcoded
`exchange` block issues no call and cannot fail, so it is not listed). -/
inductive ProbeId where
  | unary
  | unary_void
  | introspection
  | error_propagation
  | complex_types
  | optional_types
  | producer

/-- Replace one probe's call outcome with a raised exception, leaving the
rest of the worker behaviour untouched. For `error_propagation` the
"failure" is an infrastructure exception whose type name is not an
`RpcError`. -/
def setExn (s : SessionBehavior) : ProbeId → SessionBehavior
  | .unary => { s with add := CallOut.exn }
  | .unary_void => { s with void_method := CallOut.exn }
  | .introspection => { s with introspect := CallOut.exn }
  | .error_propagation => { s with raise_error := RaiseOut.exn "BrokenPipeError" }
  | .complex_types => { s with echo_list := CallOut.exn }
  | .optional_types => { s with echo_optional := CallOut.exn }
  | .producer => { s with count_stream := CallOut.exn }

/-- The result key each probe block writes. -/
def probeKey : ProbeId → String
  | .unary => "unary"
  | .unary_void => "unary_void"
  | .introspection => "introspection"
  | .error_propagation => "error_propagation"
  | .complex_types => "complex_types"
  | .optional_types => "optional_types"
  | .producer => "producer"

/-- Whether the probe writes into the patterns dict (else features). -/
def isPatternProbe : ProbeId → Bool
  | .unary => true
  | .unary_void => true
  | .producer => true
  | _ => false


/-! ## Helper lemmas -/

/-- After updating the all-false pattern dict with whatever partial dict
the probe script produced, the keys are exactly the pattern catalog. -/
theorem dictKeys_update_patterns (s : SessionBehavior) :
    dictKeys (dictUpdate zeroPatterns (runProbes s).1) = PATTERNS := rfl

/-- Same for the feature catalog. -/
theorem dictKeys_update_features (s : SessionBehavior) :
    dictKeys (dictUpdate zeroFeatures (runProbes s).2) = FEATURES := rfl

/-- A probe run against a live session either times out as a whole (some
call hangs) and yields the untouched all-false dicts, or merges the probe
script's partial dicts into them. -/
theorem probeRun_eq (s : SessionBehavior) :
    probeRun s = if sessionHangs s then (zeroPatterns, zeroFeatures)
      else (dictUpdate zeroPatterns (runProbes s).1,
            dictUpdate zeroFeatures (runProbes s).2) := by
  show (match runScript (ConnectOutcome.ok s) with
        | .timeout => (zeroPatterns, zeroFeatures)
        | .errJson => (dictUpdate zeroPatterns [], dictUpdate zeroFeatures [])
        | .ok ps fs => (dictUpdate zeroPatterns ps, dictUpdate zeroFeatures fs)) = _
  unfold runScript
  cases h : sessionHangs s <;> simp [h]

/-- When no call hangs, the run result is the merged dicts. -/
theorem probeRun_of_no_hang (s : SessionBehavior) (h : sessionHangs s = false) :
    probeRun s = (dictUpdate zeroPatterns (runProbes s).1,
                  dictUpdate zeroFeatures (runProbes s).2) := by
  rw [probeRun_eq]
  simp [h]

/-- If `connect` raises inside the probe script, the script prints the
error JSON with empty dicts and the caller's all-false dicts survive the
`update` unchanged. -/
theorem probe_zero_of_connect_fail (env : Env) (cmd : List String)
    (hc : env.connect cmd = ConnectOutcome.fail) :
    probe_capabilities (some cmd) env = (zeroPatterns, zeroFeatures) := by
  unfold probe_capabilities
  dsimp only
  rw [hc]
  split
  · rfl
  · split
    · rfl
    · rfl

/-! ## Claim theorems (first batch) -/

/-- Claim C1: for every probe run, the returned patterns and features
mappings contain exactly the keys of the fixed catalog (`PATTERNS` and
`FEATURES`), in order — no extra and no missing keys — regardless of how
many probes actually executed successfully. -/
theorem claim1_catalog_keys (wc : Option (List String)) (env : Env) :
    dictKeys (probe_capabilities wc env).1 = PATTERNS ∧
    dictKeys (probe_capabilities wc env).2 = FEATURES := by
  cases wc with
  | none => exact ⟨rfl, rfl⟩
  | some wcmd =>
    unfold probe_capabilities
    dsimp only
    split
    · exact ⟨rfl, rfl⟩
    · split
      · cases hc : env.connect wcmd with
        | fail => exact ⟨rfl, rfl⟩
        | hang => exact ⟨rfl, rfl⟩
        | ok s =>
          rw [show runScript (ConnectOutcome.ok s) =
              (if sessionHangs s then ScriptResult.timeout
               else ScriptResult.ok (runProbes s).1 (runProbes s).2) from rfl]
          cases sessionHangs s
          · exact ⟨dictKeys_update_patterns s, dictKeys_update_features s⟩
          · exact ⟨rfl, rfl⟩
      · exact ⟨rfl, rfl⟩

/-- Claim C2: if the worker session cannot be established (no worker
command, or the in-script `connect` raises because the worker fails to
launch or the RPC handshake fails), the probes never run and the caller
sees the all-false zero result. -/
theorem claim2_session_failure_zero (wc : Option (List String)) (env : Env)
    (h : wc = none ∨ wc = some [] ∨
      ∃ cmd, wc = some cmd ∧ env.connect cmd = ConnectOutcome.fail) :
    probe_capabilities wc env = (zeroPatterns, zeroFeatures) := by
  rcases h with rfl | rfl | ⟨cmd, rfl, hc⟩
  · rfl
  · rfl
  · exact probe_zero_of_connect_fail env cmd hc

/-- Witness for C2: a concrete worker command in an environment where
`connect` raises. -/
theorem claim2_witness :
    probe_capabilities (some ["vgi-worker"]) missingEnv
      = (zeroPatterns, zeroFeatures) :=
  claim2_session_failure_zero (some ["vgi-worker"]) missingEnv
    (Or.inr (Or.inr ⟨["vgi-worker"], rfl, rfl⟩))

/-! ## C3: per-probe fault isolation -/

/-- Turning one call into an exception never introduces a hang. -/
theorem sessionHangs_setExn (s : SessionBehavior) (pid : ProbeId)
    (h : sessionHangs s = false) : sessionHangs (setExn s pid) = false := by
  cases pid <;>
    simp only [sessionHangs, setExn, Bool.or_eq_false_iff, CallOut.isHang,
      RaiseOut.isHang] at h ⊢ <;>
    tauto

/-- Counterexample to C3 as stated: `hangSession` differs from
`goodSession` only in that its streaming call (the `producer` probe's own
execution) hangs past the budget; yet the recorded value of the *other*
key `unary` changes from `true` to `false`, because the single 60 s
`subprocess.run` timeout discards the whole run. -/
theorem claim3_counterexample :
    hangSession = { goodSession with count_stream := CallOut.hang } ∧
    dictLookup "unary" (probeRun goodSession).1 = some true ∧
    dictLookup "unary" (probeRun hangSession).1 = some false := by
  refine ⟨rfl, ?_, ?_⟩ <;> with_unfolding_all decide

/-- Claim C3, amended: a probe whose own execution raises an exception (or
returns malformed data, making its check raise) yields `false` for its own
key and leaves every other key's value unchanged — but only provided no
probe hangs; a hanging probe times the whole subprocess out and zeroes
every key (see the counterexample). -/
theorem claim3_exception_isolation (s : SessionBehavior) (pid : ProbeId)
    (h : sessionHangs s = false) :
    probeRun (setExn s pid) =
      (if isPatternProbe pid then
        (dictSet (probeRun s).1 (probeKey pid) false, (probeRun s).2)
      else
        ((probeRun s).1, dictSet (probeRun s).2 (probeKey pid) false)) := by
  rw [probeRun_of_no_hang (setExn s pid) (sessionHangs_setExn s pid h),
    probeRun_of_no_hang s h]
  cases pid <;> rfl

/-- Witness for the amended C3 at a concrete worker and probe. -/
theorem claim3_witness :
    sessionHangs goodSession = false ∧
    probeRun (setExn goodSession ProbeId.unary) =
      (if isPatternProbe ProbeId.unary then
        (dictSet (probeRun goodSession).1 (probeKey ProbeId.unary) false,
         (probeRun goodSession).2)
      else
        ((probeRun goodSession).1,
         dictSet (probeRun goodSession).2 (probeKey ProbeId.unary) false)) :=
  ⟨rfl, claim3_exception_isolation goodSession ProbeId.unary rfl⟩

/-! ## C4, C5, C6 -/

/-- Counterexample to C4 as stated: even against a fully conforming worker
(every call succeeds), the keys the probe script actually writes are not
the full catalogs — 2 of the 6 pattern probes and 6 of the 10 feature
probes are never invoked. -/
theorem claim4_counterexample :
    dictKeys (runProbes goodSession).1 ≠ PATTERNS ∧
    dictKeys (runProbes goodSession).2 ≠ FEATURES := by
  with_unfolding_all decide

/-- Claim C4, amended: whenever a session is established and no call
hangs, the script attempts exactly the four pattern keys `unary`,
`unary_void`, `producer`, `exchange` and the four feature keys
`introspection`, `error_propagation`, `complex_types`, `optional_types`;
the remaining eight catalog keys are never attempted and keep their
initial `false` in the merged result. -/
theorem claim4_attempted_subset (s : SessionBehavior) :
    dictKeys (runProbes s).1 = ["unary", "unary_void", "producer", "exchange"] ∧
    dictKeys (runProbes s).2 =
      ["introspection", "error_propagation", "complex_types", "optional_types"] ∧
    dictLookup "producer_with_header"
      (dictUpdate zeroPatterns (runProbes s).1) = some false ∧
    dictLookup "exchange_with_header"
      (dictUpdate zeroPatterns (runProbes s).1) = some false ∧
    dictLookup "client_logging"
      (dictUpdate zeroFeatures (runProbes s).2) = some false ∧
    dictLookup "dataclass_types"
      (dictUpdate zeroFeatures (runProbes s).2) = some false ∧
    dictLookup "annotated_types"
      (dictUpdate zeroFeatures (runProbes s).2) = some false ∧
    dictLookup "authentication"
      (dictUpdate zeroFeatures (runProbes s).2) = some false ∧
    dictLookup "external_storage"
      (dictUpdate zeroFeatures (runProbes s).2) = some false ∧
    dictLookup "opentelemetry"
      (dictUpdate zeroFeatures (runProbes s).2) = some false :=
  ⟨rfl, rfl, rfl, rfl, rfl, rfl, rfl, rfl, rfl, rfl⟩

/-- Counterexample to C5 as stated: against a worker whose every probed
call raises, the `exchange` pattern is still reported `true` — the script
hardcodes `results["patterns"]["exchange"] = True` without issuing any
call — while the probes that really issue calls report `false`. -/
theorem claim5_counterexample :
    dictLookup "exchange" (probeRun badSession).1 = some true ∧
    dictLookup "unary" (probeRun badSession).1 = some false ∧
    dictLookup "unary_void" (probeRun badSession).1 = some false ∧
    dictLookup "producer" (probeRun badSession).1 = some false := by
  with_unfolding_all decide

/-- Claim C5, amended: in a completed run, `unary` is exactly the check
`abs(add(1.0, 2.0) - 3.0) < 0.001` and `producer` is exactly the check
that `count_stream(n=3)` yields 3 items, but `exchange` is `true`
unconditionally, with no call issued. -/
theorem claim5_pattern_checks (s : SessionBehavior)
    (h : sessionHangs s = false) :
    dictLookup "unary" (probeRun s).1 = some (unaryVal s.add) ∧
    dictLookup "producer" (probeRun s).1 = some (producerVal s.count_stream) ∧
    dictLookup "exchange" (probeRun s).1 = some true := by
  rw [probeRun_of_no_hang s h]
  exact ⟨rfl, rfl, rfl⟩

/-- Witness for the amended C5 at the all-failing worker. -/
theorem claim5_witness :
    sessionHangs badSession = false ∧
    (dictLookup "unary" (probeRun badSession).1 = some (unaryVal badSession.add) ∧
     dictLookup "producer" (probeRun badSession).1
       = some (producerVal badSession.count_stream) ∧
     dictLookup "exchange" (probeRun badSession).1 = some true) :=
  ⟨rfl, claim5_pattern_checks badSession rfl⟩

/-- Claim C6: in a completed run, `error_propagation` is `true` iff
`raise_error()` raised an exception whose type name contains the taxonomy
tag `"RpcError"`; if it returns normally the probe records `false`. -/
theorem claim6_error_propagation (s : SessionBehavior)
    (h : sessionHangs s = false) :
    (dictLookup "error_propagation" (probeRun s).2 = some true ↔
      ∃ name, s.raise_error = RaiseOut.exn name ∧ pyIn "RpcError" name = true) ∧
    (s.raise_error = RaiseOut.ret →
      dictLookup "error_propagation" (probeRun s).2 = some false) := by
  rw [probeRun_of_no_hang s h]
  have hl : dictLookup "error_propagation"
      (dictUpdate zeroFeatures (runProbes s).2)
      = some (errorPropVal s.raise_error) := rfl
  rw [hl]
  constructor
  · constructor
    · intro he
      cases hr : s.raise_error with
      | ret => rw [hr] at he; simp [errorPropVal] at he
      | exn name =>
        refine ⟨name, rfl, ?_⟩
        rw [hr] at he
        simpa [errorPropVal] using he
      | hang =>
        exfalso
        simp [sessionHangs, hr, RaiseOut.isHang] at h
    · rintro ⟨name, hr, hp⟩
      rw [hr]
      simp [errorPropVal, hp]
  · intro hr
    rw [hr]
    rfl

/-- Witness for C6: the well-behaved worker raises an `RpcError`. -/
theorem claim6_witness :
    sessionHangs goodSession = false ∧
    ((dictLookup "error_propagation" (probeRun goodSession).2 = some true ↔
      ∃ name, goodSession.raise_error = RaiseOut.exn name ∧
        pyIn "RpcError" name = true) ∧
     (goodSession.raise_error = RaiseOut.ret →
      dictLookup "error_propagation" (probeRun goodSession).2 = some false)) :=
  ⟨rfl, claim6_error_propagation goodSession rfl⟩

/-! ## C7-C10 -/

/-- `get_version` yields `None` when no command is configured or the
command's executable does not exist (`FileNotFoundError`). -/
theorem get_version_missing (env : Env) (vc : Option (List String))
    (hv : vc = none ∨ vc = some [] ∨
      ∃ e rest, vc = some (e :: rest) ∧ env.exeExists e = false) :
    get_version vc env.runCmd = none := by
  rcases hv with rfl | rfl | ⟨e, rest, rfl, hex⟩
  · rfl
  · rfl
  · show (match env.runCmd (e :: rest) with
          | RunOutcome.completed rc out => if rc = 0 then some out.trim else none
          | _ => none) = none
    rw [env.run_missing e rest hex]

/-- The worker command passed to the prober is the configured one or
`None` (when a configured build failed). -/
theorem effective_worker_none_or (config : LangConfig)
    (run : List String → RunOutcome) :
    effective_worker_cmd config run = none ∨
    effective_worker_cmd config run = config.worker_cmd := by
  unfold effective_worker_cmd
  cases config.build_cmd with
  | none => exact Or.inr rfl
  | some bcmd =>
    dsimp only
    split
    · exact Or.inr rfl
    · split
      · exact Or.inr rfl
      · exact Or.inl rfl

/-- Probing with a missing (or absent) worker executable returns the
all-false dicts. -/
theorem probe_capabilities_missing (env : Env) (wc : Option (List String))
    (hw : wc = none ∨ ∃ e rest, wc = some (e :: rest) ∧ env.exeExists e = false) :
    probe_capabilities wc env = (zeroPatterns, zeroFeatures) := by
  rcases hw with rfl | ⟨e, rest, rfl, hex⟩
  · rfl
  · exact probe_zero_of_connect_fail env (e :: rest) (env.connect_missing e rest hex)

/-- Core of C7 over an arbitrary configuration: when the configured worker
executable does not exist and the version command (if any) also runs a
nonexistent executable, the produced record has a null version and
all-false patterns and features. -/
theorem test_language_zero (config : LangConfig) (env : Env)
    (hw : config.worker_cmd = none ∨
      ∃ e rest, config.worker_cmd = some (e :: rest) ∧ env.exeExists e = false)
    (hv : config.version_cmd = none ∨ config.version_cmd = some [] ∨
      ∃ e rest, config.version_cmd = some (e :: rest) ∧ env.exeExists e = false) :
    (test_language config env).version = none ∧
    (test_language config env).patterns = zeroPatterns ∧
    (test_language config env).features = zeroFeatures := by
  unfold test_language
  split
  · exact ⟨rfl, rfl, rfl⟩
  · have hp : probe_capabilities (effective_worker_cmd config env.runCmd) env
        = (zeroPatterns, zeroFeatures) := by
      rcases effective_worker_none_or config env.runCmd with he | he
      · rw [he]; rfl
      · rw [he]; exact probe_capabilities_missing env _ hw
    refine ⟨get_version_missing env _ hv, ?_, ?_⟩
    · show (probe_capabilities (effective_worker_cmd config env.runCmd) env).1 = _
      rw [hp]
    · show (probe_capabilities (effective_worker_cmd config env.runCmd) env).2 = _
      rw [hp]

/-- Claim C7: for the implementations actually configured in `LANGUAGES`,
when the launch command points to a nonexistent worker executable the
produced record is the zero record: `version` is null and every patterns
and features entry is `false`. (In every configured entry the version
command, when present, runs the same executable as the worker command, so
it raises `FileNotFoundError` too.) -/
theorem claim7_missing_executable_zero_record (name : String)
    (config : LangConfig) (env : Env) (hmem : (name, config) ∈ LANGUAGES)
    (e : String) (rest : List String)
    (hwc : config.worker_cmd = some (e :: rest))
    (hex : env.exeExists e = false) :
    (test_language config env).version = none ∧
    (test_language config env).patterns = zeroPatterns ∧
    (test_language config env).features = zeroFeatures := by
  have hw : config.worker_cmd = none ∨
      ∃ e' r', config.worker_cmd = some (e' :: r') ∧ env.exeExists e' = false :=
    Or.inr ⟨e, rest, hwc, hex⟩
  have hv : config.version_cmd = none ∨ config.version_cmd = some [] ∨
      ∃ e' r', config.version_cmd = some (e' :: r') ∧ env.exeExists e' = false := by
    simp only [LANGUAGES, List.mem_cons, List.not_mem_nil, or_false,
      Prod.mk.injEq] at hmem
    rcases hmem with ⟨-, rfl⟩ | ⟨-, rfl⟩ | ⟨-, rfl⟩ | ⟨-, rfl⟩
    · have he : e = "uv" := by
        have := hwc
        simp only [pythonConfig, Option.some.injEq, List.cons.injEq] at this
        exact this.1.symm
      subst he
      exact Or.inr (Or.inr ⟨"uv", ["run", "python", "-c",
        "import vgi_rpc; print(vgi_rpc.__version__)"], rfl, hex⟩)
    · have he : e = "bun" := by
        have := hwc
        simp only [typescriptConfig, Option.some.injEq, List.cons.injEq] at this
        exact this.1.symm
      subst he
      exact Or.inr (Or.inr ⟨"bun", ["run", "-e",
        "const pkg = require(\x27./package.json\x27); console.log(pkg.version)"],
        rfl, hex⟩)
    · exact Or.inl rfl
    · exact Or.inl rfl
  exact test_language_zero config env hw hv

/-- Witness for C7: the typescript entry with `bun` absent from the
system. -/
theorem claim7_witness :
    (test_language typescriptConfig missingEnv).version = none ∧
    (test_language typescriptConfig missingEnv).patterns = zeroPatterns ∧
    (test_language typescriptConfig missingEnv).features = zeroFeatures :=
  claim7_missing_executable_zero_record "typescript" typescriptConfig missingEnv
    (List.Mem.tail _ (List.Mem.head _)) "bun" ["run", "src/conformance/worker.ts"]
    rfl rfl

/-- Claim C8: the persisted snapshot's languages map has exactly one
record per configured implementation, in configuration order, no matter
what happened while cloning, building or probing (the record fields are
fixed by the `CapRecord` structure). -/
theorem claim8_record_for_every_language (now : String) (envs : String → Env) :
    (test_all_capabilities now envs).languages.map Prod.fst
      = LANGUAGES.map Prod.fst := rfl

/-- Claim C9: probing the same well-behaved worker twice — the
environment of the second run is identical to the first, which is what
"deterministic, stateless, no state change" means in this model — yields
identical results. -/
theorem claim9_idempotent (wc : Option (List String)) (runEnv : Nat → Env)
    (h : runEnv 0 = runEnv 1) :
    probe_capabilities wc (runEnv 0) = probe_capabilities wc (runEnv 1) := by
  rw [h]

/-- Witness for C9: two runs against the good worker. -/
theorem claim9_witness :
    probe_capabilities (some ["worker"])
        ((fun _ => envOf (ConnectOutcome.ok goodSession)) 0)
      = probe_capabilities (some ["worker"])
        ((fun _ => envOf (ConnectOutcome.ok goodSession)) 1) :=
  claim9_idempotent (some ["worker"])
    (fun _ => envOf (ConnectOutcome.ok goodSession)) rfl

/-- Claim C10: the transports field of every produced record is the
statically configured `known_transports`, on the skip path and on the
probed path alike. -/
theorem claim10_transports_frame (config : LangConfig) (env : Env) :
    (test_language config env).transports = config.known_transports := by
  unfold test_language
  split <;> rfl

end VgiRpc
